import Mathlib

/-!
Verification of the image-stack reduction engine of `pyFAI/average.py`.

Modelling conventions:
* numpy float arrays are modelled as grids of exact rationals:
  `Image h w := Fin h → Fin w → ℚ`.  Same-shaped frames are enforced by the
  type, matching the invariant stated by the data model.
* numpy `std` is the square root of the variance; `ℚ` has no square root, so
  the numeric square-root primitive is a parameter `f : ℚ → ℚ` of the
  embedding, constrained in theorems to be an exact nonnegative square root
  on the variance values actually occurring.
* float division by zero in numpy yields `inf` (positive numerator) or `nan`
  (zero numerator); the one place this matters (the cutoff mask) is embedded
  by `floatDivGtCut`, which reproduces the `inf > cutoff = True` /
  `nan > cutoff = False` comparisons exactly.
-/

deriving instance DecidableEq for Except

namespace PyFAIAverage

/-- A 2D detector frame: an `h × w` grid of (model) float values. -/
abbrev Image (h w : ℕ) := Fin h → Fin w → ℚ

/-- `stack.sum(axis=0)`: pointwise sum across the frame axis. -/
def stackSum {h w n : ℕ} (s : Fin n → Image h w) : Image h w :=
  fun i j => ∑ k, s k i j

/-- `stack.mean(axis=0)`: pointwise arithmetic mean across the frame axis. -/
def stackMean {h w n : ℕ} (s : Fin n → Image h w) : Image h w :=
  fun i j => stackSum s i j / (n : ℚ)

/-- `stack.var(axis=0)`: pointwise mean of squared deviations. -/
def stackVar {h w n : ℕ} (s : Fin n → Image h w) : Image h w :=
  fun i j => (∑ k, (s k i j - stackMean s i j) ^ 2) / (n : ℚ)

/-- `stack.std(axis=0)`: square root of the variance; the square root
primitive is the parameter `f` (see the file header). -/
def stackStd {h w n : ℕ} (f : ℚ → ℚ) (s : Fin n → Image h w) : Image h w :=
  fun i j => f (stackVar s i j)

/-- The values of one pixel across all frames of the stack. -/
def pixelValues {h w n : ℕ} (s : Fin n → Image h w) (i : Fin h) (j : Fin w) :
    List ℚ :=
  List.ofFn (fun k => s k i j)

/-- Minimum of a list of values (numpy raises on an empty stack; the empty
case is a junk value, unreachable for nonempty stacks). -/
def listMin : List ℚ → ℚ
  | [] => 0
  | x :: xs => xs.foldl min x

/-- Maximum of a list of values (empty case as in `listMin`). -/
def listMax : List ℚ → ℚ
  | [] => 0
  | x :: xs => xs.foldl max x

/-- Arithmetic mean of a list of values (`slice.mean(axis=0)` per pixel;
the empty case is `0/0 = 0` in the model, where numpy produces `nan` with a
runtime warning — reached only in the degenerate empty-selection case). -/
def listMean (l : List ℚ) : ℚ :=
  l.sum / (l.length : ℚ)

/-- `numpy.sort(stack, axis=0)` at one pixel: that pixel's values sorted. -/
def pixelSorted {h w n : ℕ} (s : Fin n → Image h w) (i : Fin h) (j : Fin w) :
    List ℚ :=
  (pixelValues s i j).mergeSort (fun a b => a ≤ b)

/-- `numpy.median(stack, axis=0)` at one pixel. -/
def listMedian (l : List ℚ) : ℚ :=
  let s := l.mergeSort (fun a b => a ≤ b)
  if l.length % 2 = 1 then s.getD (l.length / 2) 0
  else (s.getD (l.length / 2 - 1) 0 + s.getD (l.length / 2) 0) / 2

/-- The frame-axis reduction methods of `dir(stack)` that `average_dark`'s
first dispatch branch (`center_method in dir(stack)`) can meaningfully call
with `axis=0` (the ndarray reduction methods). -/
def ndarrayAxisMethods : List String :=
  ["mean", "std", "var", "sum", "min", "max"]

/-- `stack.__getattribute__(center_method)(axis=0)` for a recognized ndarray
reduction method. -/
def applyStackMethod {h w n : ℕ} (f : ℚ → ℚ) (s : Fin n → Image h w)
    (m : String) : Image h w :=
  if m = "mean" then stackMean s
  else if m = "std" then stackStd f s
  else if m = "var" then fun i j => stackVar s i j
  else if m = "sum" then stackSum s
  else if m = "min" then fun i j => listMin (pixelValues s i j)
  else fun i j => listMax (pixelValues s i j)

/-- The quantile index-range computation of `average_dark`, with the
widening of an empty range and the empty-selection warning flag:
`lower = max(0, floor(min(quantiles)*length))`,
`upper = min(length, ceil(max(quantiles)*length))`; if they coincide, extend
the upper bound when room remains, else retract the lower bound, else warn. -/
def quantileBounds (n : ℕ) (q : ℚ × ℚ) : ℕ × ℕ × Bool :=
  let lower : ℤ := max 0 ⌊(min q.1 q.2) * (n : ℚ)⌋
  let upper : ℤ := min (n : ℤ) ⌈(max q.1 q.2) * (n : ℚ)⌉
  if upper = lower then
    if upper < (n : ℤ) then (lower.toNat, (upper + 1).toNat, false)
    else if 0 < lower then ((lower - 1).toNat, upper.toNat, false)
    else (lower.toNat, upper.toNat, true)
  else (lower.toNat, upper.toNat, false)

/-- The quantile center: per pixel, the mean of the sorted values in the
index range `[lower, upper)`; the boolean records whether the empty-selection
warning was logged. -/
def quantileCenter {h w n : ℕ} (s : Fin n → Image h w) (q : ℚ × ℚ) :
    Image h w × Bool :=
  let b := quantileBounds n q
  ((fun i j => listMean (((pixelSorted s i j).drop b.1).take (b.2.1 - b.1))),
    b.2.2)

/-- `s.startswith(p)`, over the character lists (kernel-evaluable form of
the iterator-based library function). -/
def strStartsWith (s p : String) : Bool :=
  List.isPrefixOf p.data s.data

/-- The center-image dispatch of `average_dark` (lines 278–297): ndarray
reduction methods first, then `"median"`, then methods starting with
`"quantil"`, otherwise the fatal `RuntimeError`.  The boolean is the
empty-quantile-selection warning flag. -/
def computeCenter {h w n : ℕ} (f : ℚ → ℚ) (s : Fin n → Image h w)
    (m : String) (q : ℚ × ℚ) : Except String (Image h w × Bool) :=
  if m ∈ ndarrayAxisMethods then .ok (applyStackMethod f s m, false)
  else if m = "median" then .ok ((fun i j => listMedian (pixelValues s i j)), false)
  else if strStartsWith m "quantil" then .ok (quantileCenter s q)
  else .error ("Cannot understand method: " ++ m ++ " in average_dark")

/-- The float comparison `(a / s) > c` for `a = |deviation| ≥ 0`:
when `s = 0`, numpy produces `inf` (if `a > 0`, and `inf > c` is true) or
`nan` (if `a = 0`, and `nan > c` is false). -/
def floatDivGtCut (a s c : ℚ) : Bool :=
  if s = 0 then decide (a ≠ 0) else decide (a / s > c)

/-- Number of frames masked out at one pixel (`mask.sum(axis=0)`). -/
def maskedCount {n : ℕ} (mask : Fin n → Bool) : ℕ :=
  (Finset.univ.filter (fun k => mask k = true)).card

/-- The cutoff-trimming branch of `average_dark` (lines 300–310): mask the
stack entries deviating from the center by more than `c` standard
deviations, zero them, and divide the pointwise sum by
`max(1, length - mask.sum(axis=0))`. -/
def cutoffTrim {h w n : ℕ} (f : ℚ → ℚ) (s : Fin n → Image h w)
    (center : Image h w) (c : ℚ) : Image h w :=
  fun i j =>
    let sd := stackStd f s i j
    let mask : Fin n → Bool := fun k => floatDivGtCut |s k i j - center i j| sd c
    (∑ k, if mask k then 0 else s k i j) / max 1 ((n : ℚ) - (maskedCount mask : ℚ))

/-- `average_dark` on an already-assembled 3D stack: center computation,
then the cutoff gate (`cutoff is None or cutoff <= 0` keeps the center). -/
def averageDarkStack {h w n : ℕ} (f : ℚ → ℚ) (s : Fin n → Image h w)
    (m : String) (cutoff : Option ℚ) (q : ℚ × ℚ) :
    Except String (Image h w × Bool) :=
  match computeCenter f s m q with
  | .error e => .error e
  | .ok (center, warned) =>
    match cutoff with
    | none => .ok (center, warned)
    | some c => if c ≤ 0 then .ok (center, warned)
                else .ok (cutoffTrim f s center c, warned)

/-- The two input forms accepted by `average_dark`: a 3D stack, or a
sequence of same-shaped 2D frames. -/
inductive StackInput (h w : ℕ) where
  | stack3 (n : ℕ) (s : Fin n → Image h w)
  | list2 (l : List (Image h w))

/-- The frames of an input, in order. -/
def framesOf {h w : ℕ} : StackInput h w → List (Image h w)
  | .stack3 _ s => List.ofFn s
  | .list2 l => l

/-- `average_dark(lstimg, center_method, cutoff, quantiles)` (lines 253–311).
A 3D stack is used as is (`astype(float32)` is the identity in the model);
a one-element sequence short-circuits and is returned unchanged; an empty
sequence hits `lstimg[0]` and raises `IndexError`; a longer sequence is
copied into a stack.  The boolean of the result records whether the
empty-quantile-selection warning was logged. -/
def average_dark {h w : ℕ} (f : ℚ → ℚ) (input : StackInput h w) (m : String)
    (cutoff : Option ℚ) (q : ℚ × ℚ) : Except String (Image h w × Bool) :=
  match input with
  | .stack3 _ s => averageDarkStack f s m cutoff q
  | .list2 [] => .error "IndexError: list index out of range"
  | .list2 [img] => .ok (img, false)
  | .list2 l => averageDarkStack f (fun k => l.get k) m cutoff q

/-! ## Monitor value lookup (`_get_monitor_value_from_edf`, `_get_monitor_value`) -/

/-- A whitespace-separated token of a header value: its raw text and the
result of Python `float(token)` (string-to-number parsing is external to
this module, so a token carries its parse result). -/
structure Tok where
  raw : String
  asFloat : Option ℚ
deriving DecidableEq

/-- A header value: its `split()` tokens and the result of Python `float`
applied to the whole value. -/
structure HVal where
  tokens : List Tok
  asFloat : Option ℚ
deriving DecidableEq

/-- A frame header: a string-keyed mapping, as an association list. -/
abbrev Header := List (String × HVal)

/-- `dict.get(k)` on a header. -/
def headerGet (hd : Header) (k : String) : Option HVal :=
  (hd.find? (fun p => decide (p.1 = k))).map (fun p => p.2)

/-- Split a character list at its first `'/'`: `none` when no `'/'` occurs.
This is the kernel-evaluable form of Python's `"/" in key` test combined
with `key.split('/', 1)`. -/
def splitAtSlash : List Char → Option (List Char × List Char)
  | [] => none
  | c :: cs =>
    if c = '/' then some ([], cs)
    else
      match splitAtSlash cs with
      | none => none
      | some (l, r) => some (c :: l, r)

/-- How a monitor lookup fails: the intended `MonitorNotFound` exception, or
the `TypeError` escaping from a malformed `%`-format expression. -/
inductive MonitorError where
  | monitorNotFound (msg : String)
  | typeError (msg : String)
deriving DecidableEq

/-- `_get_monitor_value_from_edf(image, monitor_key)` (lines 319–371).
For a key holding a `/`, the part before the first `/` is the base and the
rest the mnemonic; the base's `_mne` header entry is split and searched for
the mnemonic, whose index selects a token of the base's `_pos` entry.
Line 357 — reached when the index falls outside the position list — builds
its `MonitorNotFound` message with two `%s` placeholders but a single
argument, so the `%` operator itself raises `TypeError` (modelled by
`MonitorError.typeError`) instead of the intended `MonitorNotFound`.
Python's shared trailing `float(monitor)` is specialized per branch: token
parse in the compound branch, whole-value parse in the plain branch. -/
def getMonitorValueFromEdf (hd : Header) (key : String) :
    Except MonitorError ℚ :=
  match splitAtSlash key.data with
  | some (b, rest) =>
    let baseKey := String.mk b
    let mnemonic := String.mk rest
    match headerGet hd (baseKey ++ "_mne") with
    | none => .error (.monitorNotFound
        ("Monitor mnemonic key " ++ baseKey ++ "_mne not found in the header"))
    | some mv =>
      match headerGet hd (baseKey ++ "_pos") with
      | none => .error (.monitorNotFound
          ("Monitor pos key " ++ baseKey ++ "_pos not found in the header"))
      | some pv =>
        match mv.tokens.findIdx? (fun t => decide (t.raw = mnemonic)) with
        | none => .error (.monitorNotFound
            ("Monitor mnemonic " ++ mnemonic ++ " not found in the header key "
              ++ baseKey ++ "_mne"))
        | some index =>
          match pv.tokens[index]? with
          | none => .error (.typeError "not enough arguments for format string")
          | some tok =>
            match tok.asFloat with
            | none => .error (.monitorNotFound
                ("Monitor value " ++ tok.raw ++ " is not valid"))
            | some v => .ok v
  | none =>
    match headerGet hd key with
    | none => .error (.monitorNotFound
        ("Monitor key " ++ key ++ " not found in the header"))
    | some hv =>
      match hv.asFloat with
      | none => .error (.monitorNotFound "Monitor value is not valid")
      | some v => .ok v

/-- The file kinds `_get_monitor_value` distinguishes. -/
inductive FabKind where
  | edf
  | numpyImage
  | other (t : String)
deriving DecidableEq

/-- The part of a fabio image the monitor lookup consumes. -/
structure FabioImage where
  kind : FabKind
  header : Header
deriving DecidableEq

/-- The observable outcome of `_get_monitor_value`: a returned float, a
returned (not raised!) `Exception` object, or one of the raised errors. -/
inductive MonitorValueResult where
  | value (v : ℚ)
  | returnedException (msg : String)
  | raisedNotFound (msg : String)
  | raisedTypeError (msg : String)
  | raisedError (msg : String)
deriving DecidableEq

/-- `_get_monitor_value(image, monitor_key)` (lines 374–391).  With a `None`
key it RETURNS an `Exception` object rather than raising it; EDF and numpy
images are dispatched to `_get_monitor_value_from_edf`; any other kind
raises a generic unsupported-format `Exception`. -/
def getMonitorValue (img : FabioImage) (key : Option String) :
    MonitorValueResult :=
  match key with
  | none => .returnedException "No monitor defined"
  | some k =>
    match img.kind with
    | .edf | .numpyImage =>
      match getMonitorValueFromEdf img.header k with
      | .ok v => .value v
      | .error (.monitorNotFound m) => .raisedNotFound m
      | .error (.typeError m) => .raisedTypeError m
    | .other t => .raisedError ("File format " ++ t ++ " unsupported")

/-! ## Correction pipeline (`Average._get_corrected_image`, `_update_flat`) -/

/-- A numpy source buffer as handed to `_get_corrected_image`: its values
plus the two properties deciding whether
`numpy.ascontiguousarray(image, numpy.float32)` copies it (it returns the
argument itself when it is already C-contiguous with dtype float32). -/
structure NArr (h w : ℕ) where
  data : Image h w
  isFloat32 : Bool
  contiguous : Bool

/-- The correction configuration of an `Average` instance (the fields read
by `_get_corrected_image`). -/
structure AverageState (h w : ℕ) where
  dark : Option (Image h w)
  flat : Option (Image h w)
  monitorKey : Option String
  threshold : Option ℚ
  minimum : Option ℚ
  maximum : Option ℚ

/-- Python truthiness of an optional float: `None` and `0.0` are falsy. -/
def truthy : Option ℚ → Bool
  | none => false
  | some x => decide (x ≠ 0)

/-- Outcome of `_get_corrected_image`: a corrected frame, `None` (the frame
is skipped), or an uncaught exception.  `inputMutated` records whether an
in-place operation wrote through to the caller's source buffer. -/
inductive CorrectedResult (h w : ℕ) where
  | image (img : Image h w) (inputMutated : Bool)
  | skipped (inputMutated : Bool)
  | raised (msg : String)

/-- `Average._get_corrected_image(fabio_image, image)` (lines 602–618).

`g` models the external `removeSaturatedPixel` policy (out of this module;
the spec gives only `apply(frame, threshold, min, max) -> frame'`), taken as
a pure function, with `a` telling whether its result buffer aliases its
argument.  The saturation step runs only under the truthiness gate
`threshold or minimum or maximum`.  Dark subtraction (`-=`), flat division
(`/=`) and monitor normalization (`/=`) are in-place: they mutate the
caller's buffer exactly when `ascontiguousarray` returned it unchanged
(already contiguous float32) and it is still the current buffer.  A
`MonitorNotFound` lookup failure is caught and the frame skipped; any other
raised lookup error propagates.  (A returned-`Exception` monitor value would
make the in-place division raise `TypeError`, but is unreachable here since
the key is not `None`.) -/
def getCorrectedImage {h w : ℕ}
    (g : Image h w → Option ℚ → Option ℚ → Option ℚ → Image h w) (a : Bool)
    (st : AverageState h w) (fab : FabioImage) (src : NArr h w) :
    CorrectedResult h w :=
  let aliased0 := src.isFloat32 && src.contiguous
  let img0 := src.data
  let sat := truthy st.threshold || truthy st.minimum || truthy st.maximum
  let img1 := if sat then g img0 st.threshold st.minimum st.maximum else img0
  let aliased1 := if sat then aliased0 && a else aliased0
  let img2 := match st.dark with
    | none => img1
    | some d => fun i j => img1 i j - d i j
  let mut2 := match st.dark with
    | none => false
    | some _ => aliased1
  let img3 := match st.flat with
    | none => img2
    | some fl => fun i j => img2 i j / fl i j
  let mut3 := match st.flat with
    | none => mut2
    | some _ => mut2 || aliased1
  match st.monitorKey with
  | none => .image img3 mut3
  | some k =>
    match getMonitorValue fab (some k) with
    | .value v => .image (fun i j => img3 i j / v) (mut3 || aliased1)
    | .raisedNotFound _ => .skipped mut3
    | .raisedTypeError m => .raised m
    | .raisedError m => .raised m
    | .returnedException _ => .raised "TypeError: unsupported operand"

/-- Whether the caller's source buffer was mutated by the correction call
(`false` for a raised exception, whose partial writes are not observed as a
result). -/
def resultMutated {h w : ℕ} : CorrectedResult h w → Bool
  | .image _ b => b
  | .skipped b => b
  | .raised _ => false

/-- The clamp `flat[numpy.where(flat <= 0)] = 1.0` (line 647). -/
def clampFlat {h w : ℕ} (g : Image h w) : Image h w :=
  fun i j => if g i j ≤ 0 then 1 else g i j

/-- `Average._update_flat` (lines 636–650): copy the raw flat, optionally
subtract the dark (when `correct_flat_from_dark` is set and a dark is
present), then set every entry `≤ 0` to `1.0`. -/
def updateFlat {h w : ℕ} (rawFlat : Option (Image h w))
    (dark : Option (Image h w)) (c : Bool) : Option (Image h w) :=
  match rawFlat with
  | none => none
  | some rf =>
    some (clampFlat
      (if c then
        match dark with
        | some d => fun i j => rf i j - d i j
        | none => rf
      else rf))

/-! ## Reduction algorithm framework (`ImageAccumulatorFilter`,
`ImageStackFilter` and their concrete filters) -/

/-- State of an `ImageAccumulatorFilter` after `init`/`add_image` calls. -/
structure AccumulatorState (h w : ℕ) where
  count : ℕ
  accumulatedImage : Option (Image h w)

/-- `ImageAccumulatorFilter.init`. -/
def accumulatorInit {h w : ℕ} : AccumulatorState h w :=
  { count := 0, accumulatedImage := none }

/-- `ImageAccumulatorFilter.add_image`, parameterized by the concrete
`_accumulate` (which receives `None` on the first call). -/
def accumulatorAdd {h w : ℕ}
    (acc : Option (Image h w) → Image h w → Image h w)
    (st : AccumulatorState h w) (img : Image h w) : AccumulatorState h w :=
  { count := st.count + 1, accumulatedImage := some (acc st.accumulatedImage img) }

/-- `MaxAveraging._accumulate`: pointwise maximum (first image kept as is). -/
def maxAccumulate {h w : ℕ} : Option (Image h w) → Image h w → Image h w
  | none, img => img
  | some acc, img => fun i j => max (acc i j) (img i j)

/-- `MinAveraging._accumulate`: pointwise minimum. -/
def minAccumulate {h w : ℕ} : Option (Image h w) → Image h w → Image h w
  | none, img => img
  | some acc, img => fun i j => min (acc i j) (img i j)

/-- `SumAveraging._accumulate`: pointwise addition. -/
def sumAccumulate {h w : ℕ} : Option (Image h w) → Image h w → Image h w
  | none, img => img
  | some acc, img => fun i j => acc i j + img i j

/-- `ImageAccumulatorFilter.get_result` (lines 121–128), inherited by the
max/min/sum filters: it returns `self._accumulated_image` — which is `None`
right after `init` — and never raises. -/
def accumulatorGetResult {h w : ℕ} (st : AccumulatorState h w) :
    Except String (Option (Image h w)) :=
  .ok st.accumulatedImage

/-- `MeanAveraging.get_result` (line 162):
`self._accumulated_image / numpy.float32(self._count)`.  Right after `init`
the accumulated image is `None` and the division raises `TypeError`. -/
def meanGetResult {h w : ℕ} (st : AccumulatorState h w) :
    Except String (Option (Image h w)) :=
  match st.accumulatedImage with
  | none => .error "TypeError: unsupported operand types for division"
  | some img => .ok (some (fun i j => img i j / (st.count : ℚ)))

/-- State of an `ImageStackFilter`.  The zeros buffer of capacity
`max_images` written at index `count` and truncated by `resize` at result
time nets, for `count ≤ max_images`, to the list of added frames in order;
the buffer is `None` until the first `add_image`. -/
structure StackState (h w : ℕ) where
  frames : Option (List (Image h w))
  maxImages : Option ℕ

/-- `ImageStackFilter.init`. -/
def stackInit {h w : ℕ} (m : Option ℕ) : StackState h w :=
  { frames := none, maxImages := m }

/-- `ImageStackFilter.add_image`. -/
def stackAddImage {h w : ℕ} (st : StackState h w) (img : Image h w) :
    StackState h w :=
  { st with frames := some ((st.frames.getD []) ++ [img]) }

/-- `ImageStackFilter.get_result` (lines 189–195): raises
`"No data to reduce"` when no image was ever added, otherwise truncates the
stack and delegates to the concrete `_compute_stack_reduction` `red`. -/
def stackGetResult {h w : ℕ}
    (red : List (Image h w) → Except String (Image h w))
    (st : StackState h w) : Except String (Image h w) :=
  match st.frames with
  | none => .error "No data to reduce"
  | some fs => red fs

/-- `AverageDarkFilter._compute_stack_reduction`: delegates to
`average_dark` on the assembled 3D stack (so the sequence short-circuit of
`average_dark` is not taken here). -/
def averageDarkFilterReduce {h w : ℕ} (f : ℚ → ℚ) (m : String)
    (cutoff : Option ℚ) (q : ℚ × ℚ) (fs : List (Image h w)) :
    Except String (Image h w) :=
  (average_dark f (.stack3 fs.length (fun k => fs.get k)) m cutoff q).map
    (fun p => p.1)

/-! ## Claim-side definitions and helper lemmas -/

/-- The spec's cutoff-trimmed averaging formula, written from the claim's
words (to be compared with the code path `cutoffTrim`): mask where
`|frame − center| / std > cutoff`, zero out the masked entries, sum across
frames and divide by `max(1, N − masked-count-per-pixel)` pointwise. -/
def claimTrimmedAverage {h w n : ℕ} (s : Fin n → Image h w)
    (ctr sd : Image h w) (c : ℚ) : Image h w :=
  fun i j =>
    (∑ k, if |s k i j - ctr i j| / sd i j > c then 0 else s k i j)
      / max 1 ((n : ℚ) - ((Finset.univ.filter
          (fun k => |s k i j - ctr i j| / sd i j > c)).card : ℚ))

/-- A concrete two-frame 1×1 input for the C1 witness: pixel values 2 and 4. -/
def c1frames : List (Image 1 1) :=
  [fun _ _ => 2, fun _ _ => 4]

/-- A concrete two-frame 1×1 stack for the C2 witness: pixel values 1 and 3
(mean 2, variance 1, standard deviation 1). -/
def c2stack : Fin 2 → Image 1 1 :=
  fun k _ _ => if k = 0 then 1 else 3

/-- A concrete 4-frame 1×1 stack for C5: pixel values 1, 2, 3, 4. -/
def c5stack : Fin 4 → Image 1 1 :=
  fun k _ _ => (k : ℚ) + 1

/-- The header of the C6 failing input: `counter_mne` lists two mnemonics
but `counter_pos` holds a single position value. -/
def c6header : Header :=
  [("counter_mne", { tokens := [⟨"a", none⟩, ⟨"b", none⟩], asFloat := none }),
   ("counter_pos", { tokens := [⟨"1", some 1⟩], asFloat := none })]

theorem stackMean_pixel {h w n : ℕ} (s : Fin n → Image h w) (i : Fin h)
    (j : Fin w) : stackMean s i j = listMean (List.ofFn fun k => s k i j) := by
  simp [stackMean, stackSum, listMean, List.sum_ofFn]

theorem stackMean_of_list {h w : ℕ} (l : List (Image h w)) (i : Fin h)
    (j : Fin w) :
    stackMean (fun k => l.get k) i j = listMean (l.map fun g => g i j) := by
  rw [stackMean_pixel]
  congr 1
  conv_rhs => rw [← List.ofFn_get l]
  rw [List.map_ofFn]
  rfl

theorem computeCenter_mean {h w n : ℕ} (f : ℚ → ℚ) (s : Fin n → Image h w)
    (q : ℚ × ℚ) : computeCenter f s "mean" q = .ok (stackMean s, false) := by
  simp [computeCenter, ndarrayAxisMethods, applyStackMethod]

theorem computeCenter_quantile {h w n : ℕ} (f : ℚ → ℚ)
    (s : Fin n → Image h w) (q : ℚ × ℚ) :
    computeCenter f s "quantile" q = .ok (quantileCenter s q) := rfl

theorem clampFlat_pos {h w : ℕ} (g : Image h w) (i : Fin h) (j : Fin w) :
    0 < clampFlat g i j := by
  unfold clampFlat
  split
  · norm_num
  · next hle => exact lt_of_not_le hle

theorem quantileBounds_half_four : quantileBounds 4 (1/2, 1/2) = (2, 3, false) := by
  norm_num [quantileBounds]
  exact ⟨rfl, rfl⟩

theorem averageDarkStack_mean_no_cutoff {h w : ℕ} (f : ℚ → ℚ)
    (cutoff : Option ℚ) (q : ℚ × ℚ) (hcut : ∀ c, cutoff = some c → c ≤ 0)
    (n : ℕ) (s : Fin n → Image h w) :
    averageDarkStack f s "mean" cutoff q = .ok (stackMean s, false) := by
  unfold averageDarkStack
  rw [computeCenter_mean]
  cases cutoff with
  | none => rfl
  | some c => simp [hcut c rfl]

/-! ## The claims -/

/-- C1: for every stack of at least one same-shaped frame (given as a 3D
stack or as a sequence of frames), `average_dark` with `center_method`
`"mean"` and `cutoff` either `None` or `≤ 0` returns the pointwise
arithmetic mean of the stack across the frame axis (and logs no
empty-quantile warning). -/
theorem averageDark_mean_no_cutoff_is_pointwise_mean (h w : ℕ) (f : ℚ → ℚ)
    (x : StackInput h w) (cutoff : Option ℚ) (q : ℚ × ℚ)
    (hn : 1 ≤ (framesOf x).length)
    (hcut : ∀ c, cutoff = some c → c ≤ 0) :
    average_dark f x "mean" cutoff q
      = .ok ((fun i j => listMean ((framesOf x).map fun g => g i j)), false) := by
  cases x with
  | stack3 n s =>
    have he : average_dark f (.stack3 n s) "mean" cutoff q
        = averageDarkStack f s "mean" cutoff q := rfl
    rw [he, averageDarkStack_mean_no_cutoff f cutoff q hcut]
    refine congrArg _ (Prod.ext ?_ rfl)
    funext i j
    show stackMean s i j
      = listMean ((framesOf (StackInput.stack3 n s)).map fun g => g i j)
    rw [stackMean_pixel]
    show listMean (List.ofFn fun k => s k i j)
      = listMean ((List.ofFn s).map fun g => g i j)
    rw [List.map_ofFn]
    rfl
  | list2 l =>
    match l with
    | [] => simp [framesOf] at hn
    | [img] =>
      have he : average_dark f (.list2 [img]) "mean" cutoff q
          = .ok (img, false) := rfl
      rw [he]
      refine congrArg _ (Prod.ext ?_ rfl)
      funext i j
      show img i j = listMean ([img].map fun g => g i j)
      simp [listMean]
    | a :: b :: t =>
      have he : average_dark f (.list2 (a :: b :: t)) "mean" cutoff q
          = averageDarkStack f (fun k => (a :: b :: t).get k) "mean" cutoff q := rfl
      rw [he, averageDarkStack_mean_no_cutoff f cutoff q hcut]
      refine congrArg _ (Prod.ext ?_ rfl)
      funext i j
      show stackMean (fun k => (a :: b :: t).get k) i j
        = listMean ((a :: b :: t).map fun g => g i j)
      rw [stackMean_of_list]

/-- Witness for C1: the theorem applied to a concrete two-frame sequence. -/
theorem averageDark_mean_no_cutoff_is_pointwise_mean_witness :
    average_dark (fun y => y) (StackInput.list2 c1frames) "mean" none (1/2, 1/2)
      = .ok ((fun i j =>
          listMean ((framesOf (StackInput.list2 c1frames)).map fun g => g i j)),
        false) :=
  averageDark_mean_no_cutoff_is_pointwise_mean 1 1 (fun y => y)
    (StackInput.list2 c1frames) none (1/2, 1/2)
    (by norm_num [framesOf, c1frames]) (fun c hc => nomatch hc)

/-- C2: for every stack of `N` same-shaped frames and every `cutoff > 0`,
whenever the center computation succeeds and the pointwise standard
deviation (the exact square root of the pointwise variance, pinned by
`hsq`) is everywhere nonzero, `average_dark` returns exactly the spec's
formula: mask each stack entry where `|frame − center| / std > cutoff`,
zero the masked entries, and divide the pointwise sum by
`max(1, N − masked-count-at-that-pixel)`. -/
theorem averageDark_cutoff_is_claim_trimmed_average (h w n : ℕ) (f : ℚ → ℚ)
    (s : Fin n → Image h w) (m : String) (q : ℚ × ℚ) (c : ℚ)
    (ctr : Image h w) (b : Bool)
    (hc : 0 < c)
    (hcen : computeCenter f s m q = .ok (ctr, b))
    (hsq : ∀ i j, 0 ≤ stackStd f s i j ∧ stackStd f s i j ^ 2 = stackVar s i j)
    (hstd : ∀ i j, stackStd f s i j ≠ 0) :
    average_dark f (.stack3 n s) m (some c) q
      = .ok (claimTrimmedAverage s ctr (stackStd f s) c, b) := by
  have he : average_dark f (.stack3 n s) m (some c) q
      = averageDarkStack f s m (some c) q := rfl
  rw [he]
  unfold averageDarkStack
  rw [hcen]
  show (if c ≤ 0 then Except.ok (ctr, b)
      else Except.ok (cutoffTrim f s ctr c, b))
    = Except.ok (claimTrimmedAverage s ctr (stackStd f s) c, b)
  rw [if_neg (not_le.mpr hc)]
  refine congrArg _ (Prod.ext ?_ rfl)
  show cutoffTrim f s ctr c = claimTrimmedAverage s ctr (stackStd f s) c
  funext i j
  have hm : ∀ k : Fin n,
      floatDivGtCut |s k i j - ctr i j| (stackStd f s i j) c
        = decide (|s k i j - ctr i j| / stackStd f s i j > c) := by
    intro k
    unfold floatDivGtCut
    rw [if_neg (hstd i j)]
  simp only [cutoffTrim, claimTrimmedAverage, maskedCount, hm,
    decide_eq_true_eq]

/-- Witness for C2: the theorem applied to a concrete two-frame stack with
cutoff 3 (the identity is an exact square root on the variance value 1). -/
theorem averageDark_cutoff_is_claim_trimmed_average_witness :
    average_dark (fun y => y) (.stack3 2 c2stack : StackInput 1 1) "mean"
        (some 3) (1/2, 1/2)
      = .ok (claimTrimmedAverage c2stack (stackMean c2stack)
          (stackStd (fun y => y) c2stack) 3, false) :=
  averageDark_cutoff_is_claim_trimmed_average 1 1 2 (fun y => y) c2stack
    "mean" (1/2, 1/2) 3 (stackMean c2stack) false
    (by norm_num)
    (computeCenter_mean (fun y => y) c2stack (1/2, 1/2))
    (by
      intro i j
      norm_num [stackStd, stackVar, stackMean, stackSum, c2stack,
        Fin.sum_univ_two])
    (by
      intro i j
      norm_num [stackStd, stackVar, stackMean, stackSum, c2stack,
        Fin.sum_univ_two])

/-- C3, counterexample: the accumulator filters (max/min/sum inherit
`ImageAccumulatorFilter.get_result`) do NOT raise when `get_result` is
called right after `init` with no image added — they return the absent
(`None`) accumulated image as a normal value. -/
theorem accumulator_result_before_add_returns_none :
    accumulatorGetResult (accumulatorInit : AccumulatorState 1 1)
      = .ok none := rfl

/-- C3, amended: calling `result()` after `init` and before any `add` is an
error only for the batch stack reducer (`"No data to reduce"`) and — as a
`TypeError`, not a "no data" error — for the mean accumulator; the max, min
and sum accumulators instead return the absent (`None`) image without
raising. -/
theorem result_before_add_behaviour (h w : ℕ) :
    (∀ (m : Option ℕ) (r : List (Image h w) → Except String (Image h w)),
      stackGetResult r (stackInit m) = .error "No data to reduce")
    ∧ meanGetResult (accumulatorInit : AccumulatorState h w)
        = .error "TypeError: unsupported operand types for division"
    ∧ accumulatorGetResult (accumulatorInit : AccumulatorState h w)
        = .ok none :=
  ⟨fun _ _ => rfl, rfl, rfl⟩

/-- C4, counterexample: a 3D stack whose frame axis has length 1 is NOT
short-circuited — with an unrecognized center method `average_dark` raises
instead of returning the frame. -/
theorem averageDark_single_frame_stack3_unknown_method_raises :
    average_dark (fun y => y)
        (.stack3 1 (fun _ _ _ => (5 : ℚ)) : StackInput 1 1) "foo" none
        (1/2, 1/2)
      = .error "Cannot understand method: foo in average_dark" := rfl

/-- C4, amended: for every single-frame SEQUENCE input (a one-element list
of 2D frames) and every center method — recognized or not — `average_dark`
short-circuits and returns that frame unchanged (cast to floating point)
without raising; a 3D stack with frame axis of length 1 instead takes the
normal reduction path. -/
theorem averageDark_single_frame_list_returns_frame (h w : ℕ) (f : ℚ → ℚ)
    (g : Image h w) (m : String) (cutoff : Option ℚ) (q : ℚ × ℚ) :
    average_dark f (.list2 [g]) m cutoff q = .ok (g, false) := rfl

/-- C5, counterexample: quantile band `(0.5, 0.5)` on a stack of 4 frames
returns a defined result (no exception) but does NOT log the empty-range
warning — the warning flag of the result is `false` (it is set only when
neither bound can be widened). -/
theorem averageDark_quantile_half_four_logs_no_warning :
    (average_dark (fun y => y) (.stack3 4 c5stack : StackInput 1 1)
        "quantile" none (1/2, 1/2)).map (fun p => p.2)
      = .ok false := by
  have he : average_dark (fun y => y) (.stack3 4 c5stack : StackInput 1 1)
        "quantile" none (1/2, 1/2)
      = averageDarkStack (fun y => y) c5stack "quantile" none (1/2, 1/2) := rfl
  rw [he]
  unfold averageDarkStack
  rw [computeCenter_quantile]
  simp only [quantileCenter, quantileBounds_half_four]
  rfl

/-- C5, amended: for the quantile band `(0.5, 0.5)` on a stack of 4 frames
the empty index range `[2, 2)` is widened by extending the upper bound
(room remains: `2 < 4`), so `average_dark` returns, at each pixel, the mean
of the sorted slice `[2, 3)` — a defined result — and the empty-range
warning is NOT logged (it fires only when neither bound can move). -/
theorem averageDark_quantile_half_four_widens_upper (h w : ℕ) (f : ℚ → ℚ)
    (s : Fin 4 → Image h w) :
    average_dark f (.stack3 4 s) "quantile" none (1/2, 1/2)
      = .ok ((fun i j => listMean (((pixelSorted s i j).drop 2).take 1)),
        false) := by
  have he : average_dark f (.stack3 4 s) "quantile" none (1/2, 1/2)
      = averageDarkStack f s "quantile" none (1/2, 1/2) := rfl
  rw [he]
  unfold averageDarkStack
  rw [computeCenter_quantile]
  simp only [quantileCenter, quantileBounds_half_four]

/-- C6 (code bug): looking up `counter/b` when the mnemonic's index (1) has
no corresponding position value does not raise the documented
`MonitorNotFound` — the malformed `%`-format expression on line 357 (two
`%s` placeholders, one argument) raises `TypeError` first. -/
theorem monitor_lookup_missing_position_raises_typeerror :
    getMonitorValueFromEdf c6header "counter/b"
      = .error (.typeError "not enough arguments for format string") := rfl

/-- C7, counterexample: a source buffer that is already contiguous float32
is returned unchanged by `numpy.ascontiguousarray`, so the in-place dark
subtraction writes through to the caller's input array — the corrected
data is not decoupled from the source buffer. -/
theorem corrected_image_mutates_contiguous_float32_input :
    resultMutated (getCorrectedImage (fun g _ _ _ => g) false
        { dark := some (fun _ _ => 1), flat := none, monitorKey := none,
          threshold := none, minimum := none, maximum := none }
        { kind := .edf, header := [] }
        { data := (fun _ _ => (4 : ℚ) : Image 1 1), isFloat32 := true,
          contiguous := true })
      = true := rfl

/-- C7, amended: the correction pipeline's output is decoupled from the
caller's source buffer whenever that buffer is not already a contiguous
single-precision array (then `ascontiguousarray` copies and no in-place
step can reach the source); a contiguous float32 input, however, is
corrected in place. -/
theorem corrected_image_decoupled_when_conversion_copies (h w : ℕ)
    (g : Image h w → Option ℚ → Option ℚ → Option ℚ → Image h w) (a : Bool)
    (st : AverageState h w) (fab : FabioImage) (src : NArr h w)
    (hsrc : src.isFloat32 = false ∨ src.contiguous = false) :
    resultMutated (getCorrectedImage g a st fab src) = false := by
  have ha : (src.isFloat32 && src.contiguous) = false := by
    rcases hsrc with hh | hh <;> simp [hh]
  obtain ⟨dk, fl, mk, t, u, v⟩ := st
  unfold getCorrectedImage
  dsimp only
  rw [ha]
  simp only [Bool.false_and, ite_self, Bool.or_false]
  cases dk <;> cases fl <;> cases mk <;>
    first
      | rfl
      | (dsimp only
         rename_i k
         cases getMonitorValue fab (some k) <;> rfl)

/-- Witness for C7 amended: a non-contiguous float32 source with a dark
configured is not mutated. -/
theorem corrected_image_decoupled_when_conversion_copies_witness :
    resultMutated (getCorrectedImage (fun g _ _ _ => g) false
        { dark := some (fun _ _ => 1), flat := none, monitorKey := none,
          threshold := none, minimum := none, maximum := none }
        { kind := .edf, header := [] }
        { data := (fun _ _ => (4 : ℚ) : Image 1 1), isFloat32 := true,
          contiguous := false })
      = false :=
  corrected_image_decoupled_when_conversion_copies 1 1 (fun g _ _ _ => g)
    false
    { dark := some (fun _ _ => 1), flat := none, monitorKey := none,
      threshold := none, minimum := none, maximum := none }
    { kind := .edf, header := [] }
    { data := (fun _ _ => (4 : ℚ) : Image 1 1), isFloat32 := true,
      contiguous := false }
    (Or.inr rfl)

/-- C8: every entry of the flat map produced by `_update_flat` (with or
without the dark correction) is strictly positive — entries `≤ 0` are
clamped to `1.0`, so the flat used for division has no zero or negative
entry. -/
theorem updateFlat_entries_positive (h w : ℕ) (rf dk : Option (Image h w))
    (c : Bool) (fl : Image h w) (hf : updateFlat rf dk c = some fl)
    (i : Fin h) (j : Fin w) : 0 < fl i j := by
  cases rf with
  | none => exact absurd hf (by simp [updateFlat])
  | some r =>
    have he : updateFlat (some r) dk c
        = some (clampFlat
            (if c then
              match dk with
              | some d => fun i j => r i j - d i j
              | none => r
            else r)) := rfl
    rw [he] at hf
    obtain rfl : _ = fl := Option.some.inj hf
    exact clampFlat_pos _ i j

/-- Witness for C8: a raw flat with a negative entry is clamped to 1. -/
theorem updateFlat_entries_positive_witness :
    0 < (clampFlat ((fun _ _ => -5) : Image 1 1)) 0 0 :=
  updateFlat_entries_positive 1 1 (some (fun _ _ => -5)) none false
    (clampFlat (fun _ _ => -5)) rfl 0 0

/-- C9: with no monitor key configured (`None`), `_get_monitor_value`
returns — rather than raises — an `Exception` object carrying
"No monitor defined": the caller receives an `Exception` instance, not a
float and not a raised error. -/
theorem getMonitorValue_none_key_returns_exception (img : FabioImage) :
    getMonitorValue img none = .returnedException "No monitor defined" := rfl

/-- C10: the saturation step runs only under the truthiness gate
`threshold or minimum or maximum`: when every bound is falsy (`None` or
`0`), the correction result is exactly the one with no saturation bound
configured — the frame passes through that step unchanged, whatever the
external saturated-pixel policy does. -/
theorem saturation_gate_falsy_bounds_noop (h w : ℕ)
    (g : Image h w → Option ℚ → Option ℚ → Option ℚ → Image h w) (a : Bool)
    (st : AverageState h w) (fab : FabioImage) (src : NArr h w)
    (t u v : Option ℚ)
    (ht : truthy t = false) (hu : truthy u = false) (hv : truthy v = false) :
    getCorrectedImage g a
        { st with threshold := t, minimum := u, maximum := v } fab src
      = getCorrectedImage g a
        { st with threshold := none, minimum := none, maximum := none }
        fab src := by
  obtain ⟨dk, fl, mk, t0, u0, v0⟩ := st
  unfold getCorrectedImage
  dsimp only
  rw [ht, hu, hv]
  rfl

/-- Witness for C10: the zero threshold is as falsy as an absent one. -/
theorem saturation_gate_falsy_bounds_noop_witness :
    getCorrectedImage (fun g _ _ _ => g) false
        { dark := none, flat := none, monitorKey := none,
          threshold := some 0, minimum := none, maximum := some 0 }
        { kind := .edf, header := [] }
        { data := (fun _ _ => (4 : ℚ) : Image 1 1), isFloat32 := true,
          contiguous := true }
      = getCorrectedImage (fun g _ _ _ => g) false
        { dark := none, flat := none, monitorKey := none,
          threshold := none, minimum := none, maximum := none }
        { kind := .edf, header := [] }
        { data := (fun _ _ => (4 : ℚ) : Image 1 1), isFloat32 := true,
          contiguous := true } :=
  saturation_gate_falsy_bounds_noop 1 1 (fun g _ _ _ => g) false
    { dark := none, flat := none, monitorKey := none,
      threshold := some 0, minimum := none, maximum := some 0 }
    { kind := .edf, header := [] }
    { data := (fun _ _ => (4 : ℚ) : Image 1 1), isFloat32 := true,
      contiguous := true }
    (some 0) none (some 0) (by norm_num [truthy]) rfl
    (by norm_num [truthy])

end PyFAIAverage
